import Mathlib

/-!
Shallow embedding of `src/convert.py` (MBTiles_Expander), covering the parts
the specification talks about: the zoom-filtered tile query, the row-flip
coordinate translation, the write-or-composite tile output step, the archive
validation loop, and the extraction driver.

Modelling conventions:
* SQLite rows of the `tiles` relation are `Tile` records; the native row order
  of an archive is the order of its `tiles` list.
* The output directory is an explicit file-system value `FS` (a list of created
  directories plus an association list from paths to raw byte contents), and
  every path is root-relative, mirroring the `os.chdir`-based navigation of the
  script as explicit path components.
* PIL images are RGBA pixel grids.  The lossless codec connecting file bytes to
  images is a simple executable serialisation (`encodeImage`/`decodeImage`)
  with the round-trip property PNG has; `Image.paste(im2, (0, 0), im2)` with an
  RGBA mask is embedded pixel-by-pixel with PIL's exact blend arithmetic
  `MULDIV255(bg, 255 - m) + MULDIV255(fg, m)` where `MULDIV255` is exact
  rounded division by 255.
* Python exceptions that the script does not catch are an explicit error type
  `PyError`; `runMain` returns an `Outcome` (normal completion, `exit(code)`,
  or an uncaught exception).
* CPython interns small integers, so the script's `min_zoom is not -1` /
  `max_zoom is not -1` tests (lines 281-285) behave exactly like `≠ -1` for
  the `type=int` argparse values; they are embedded as `≠`.
-/

set_option maxHeartbeats 1000000

namespace MBT

/-- A row of the `tiles` relation: `(zoom_level, tile_column, tile_row, tile_data)`.
`tile_data` is the raw image blob, as a list of bytes. -/
structure Tile where
  zoom_level : Nat
  tile_column : Nat
  tile_row : Nat
  tile_data : List Nat
deriving Repr, DecidableEq

/-- Default of the `--min-zoom` option (src/convert.py line 100): the sentinel `-1`. -/
def min_zoom_default : Int := -1

/-- Default of the `-m, --max-zoom` option (src/convert.py line 98): the sentinel `-1`. -/
def max_zoom_default : Int := -1

/-- The zoom-filtered SELECT dispatch of the extraction driver
(src/convert.py lines 279-286).  `-1` is the sentinel for an absent bound; the
four branches mirror the four `cursor.execute` calls and their WHERE clauses. -/
def selectTiles (tiles : List Tile) (min_zoom max_zoom : Int) : List Tile :=
  if min_zoom = -1 ∧ max_zoom = -1 then
    tiles
  else if min_zoom = -1 ∧ ¬ max_zoom = -1 then
    tiles.filter (fun t => decide ((t.zoom_level : Int) ≤ max_zoom))
  else if ¬ min_zoom = -1 ∧ max_zoom = -1 then
    tiles.filter (fun t => decide (min_zoom ≤ (t.zoom_level : Int)))
  else
    tiles.filter (fun t =>
      decide ((t.zoom_level : Int) ≤ max_zoom ∧ min_zoom ≤ (t.zoom_level : Int)))

/-- Modelled from the spec: `translate(zoom, column, row) -> (zoom, column, translatedRow)`
with `translatedRow = 2^zoom - 1 - row` (spec section 4.2); written from the
spec's words to be compared with the driver's path construction. -/
def translate (zoom column row : Nat) : Nat × Nat × Int :=
  (zoom, column, (2 : Int) ^ zoom - 1 - (row : Int))

/-- The output path the extraction loop uses for one tile
(src/convert.py lines 294-296): directory `str(row[0])`, directory
`str(row[1])`, file `str((2**row[0]) - 1 - row[2]) + out_format`. -/
def tileOutputPath (t : Tile) (ext : String) : List String :=
  [toString t.zoom_level, toString t.tile_column,
   toString ((2 : Int) ^ t.zoom_level - 1 - (t.tile_row : Int)) ++ ext]

/-! ## Images and PIL paste semantics -/

/-- One RGBA pixel; every channel is a byte value `0..255`. -/
structure Pixel where
  r : Nat
  g : Nat
  b : Nat
  a : Nat
deriving Repr, DecidableEq

/-- Channels of a pixel are in byte range. -/
def Pixel.inRange (p : Pixel) : Prop :=
  p.r ≤ 255 ∧ p.g ≤ 255 ∧ p.b ≤ 255 ∧ p.a ≤ 255

/-- An RGBA image: dimensions plus the pixel grid in row-major order. -/
structure Img where
  width : Nat
  height : Nat
  pixels : List Pixel
deriving Repr, DecidableEq

/-- A well-formed image: the pixel list has exactly `width * height` entries and
every channel is a byte. -/
def Img.wf (im : Img) : Prop :=
  im.pixels.length = im.width * im.height ∧ ∀ p ∈ im.pixels, p.inRange

/-- PIL's `MULDIV255(a, b, tmp)` macro: exact rounded `a * b / 255`, computed as
`tmp = a*b + 128; ((tmp >> 8) + tmp) >> 8`. -/
def muldiv255 (a b : Nat) : Nat :=
  ((a * b + 128) / 256 + (a * b + 128)) / 256

/-- PIL's `BLEND(mask, in1, in2)` macro, used by `Image.paste` for intermediate
mask values: `MULDIV255(in1, 255 - mask) + MULDIV255(in2, mask)`. -/
def blend (m v1 v2 : Nat) : Nat :=
  muldiv255 v1 (255 - m) + muldiv255 v2 m

/-- One pixel of `im1.paste(im2, (0, 0), im2)`: every band of the background,
alpha included, is blended towards the foreground using the foreground's alpha
channel as the mask. -/
def pastePixel (bg fg : Pixel) : Pixel :=
  ⟨blend fg.a bg.r fg.r, blend fg.a bg.g fg.g, blend fg.a bg.b fg.b, blend fg.a bg.a fg.a⟩

/-- `im1.paste(im2, (0, 0), im2)` (src/convert.py line 301) on same-sized tiles:
pointwise paste over the pixel grid, anchored at the origin. -/
def pasteImage (bg fg : Img) : Img :=
  ⟨bg.width, bg.height, List.zipWith pastePixel bg.pixels fg.pixels⟩

/-- Byte serialisation of one pixel. -/
def encodePixel (p : Pixel) : List Nat :=
  [p.r, p.g, p.b, p.a]

/-- Lossless encoding of an image to file bytes (the role PNG encoding plays
at src/convert.py line 302). -/
def encodeImage (im : Img) : List Nat :=
  im.width :: im.height :: (im.pixels.map encodePixel).flatten

/-- Parse a flat byte list as pixels, four bytes at a time; fails on a ragged
tail or an out-of-range channel (the role of a PIL decode failure). -/
def decodePixels : List Nat → Option (List Pixel)
  | [] => some []
  | r :: g :: b :: a :: rest =>
    if r ≤ 255 ∧ g ≤ 255 ∧ b ≤ 255 ∧ a ≤ 255 then
      (decodePixels rest).map (fun ps => ⟨r, g, b, a⟩ :: ps)
    else
      none
  | _ => none

/-- `Image.open(...).convert("RGBA")` on file bytes (src/convert.py lines
299-300): decode the bytes to an RGBA image, or fail. -/
def decodeImage : List Nat → Option Img
  | w :: h :: rest =>
    match decodePixels rest with
    | some ps => if ps.length = w * h then some ⟨w, h, ps⟩ else none
    | none => none
  | _ => none

/-! ## The output directory -/

/-- The output directory: the set of directories created so far and an
association from (root-relative) file paths to raw byte contents. -/
structure FS where
  dirs : List (List String)
  files : List (List String × List Nat)
deriving Repr, DecidableEq

/-- Content of the file at `p`, if one exists (`os.path.exists` plus `open`). -/
def FS.lookupFile (fs : FS) (p : List String) : Option (List Nat) :=
  (fs.files.find? (fun e => e.1 == p)).map (·.2)

/-- Create or overwrite the file at `p` with contents `bytes`. -/
def FS.writeFile (fs : FS) (p : List String) (bytes : List Nat) : FS :=
  ⟨fs.dirs, (p, bytes) :: fs.files.filter (fun e => !(e.1 == p))⟩

/-- `safeMakeDir(d)` (src/convert.py lines 41-44): create the directory unless
it already exists; never an error when it does. -/
def safeMakeDir (fs : FS) (d : List String) : FS :=
  if d ∈ fs.dirs then fs else ⟨d :: fs.dirs, fs.files⟩

/-! ## Errors and the per-tile step -/

/-- Uncaught Python exceptions of the script. -/
inductive PyError where
  /-- `TypeError` raised by subscripting the `None` that `fetchone()` returns
  when the metadata relation has no `format` row (src/convert.py line 158). -/
  | typeError
  /-- `NameError` raised when `out_format` is referenced without ever having
  been assigned (src/convert.py line 296 after lines 267-273 skip it). -/
  | nameError
  /-- `sqlite3.OperationalError` escaping uncaught (driver, lines 264-286). -/
  | operationalError
  /-- A PIL decode failure inside the extraction loop (lines 299-300). -/
  | decodeError
deriving Repr, DecidableEq

/-- The write-or-composite branch of the extraction loop
(src/convert.py lines 297-306): if no file exists at the path, write the raw
tile bytes verbatim; otherwise decode both the existing file and the new bytes
to RGBA, paste the new image over the existing one at the origin with the new
image's alpha as mask, and re-encode over the same path.  A decode failure is
an uncaught error. -/
def writeOrComposite (fs : FS) (p : List String) (bytes : List Nat) : Except PyError FS :=
  match fs.lookupFile p with
  | some existing =>
    match decodeImage existing, decodeImage bytes with
    | some im1, some im2 => .ok (fs.writeFile p (encodeImage (pasteImage im1 im2)))
    | _, _ => .error .decodeError
  | none => .ok (fs.writeFile p bytes)

/-- One iteration of the extraction loop body (src/convert.py lines 293-306):
`setDir(str(row[0]))`, `setDir(str(row[1]))`, build `image_name` (referencing
`out_format`, which raises `NameError` when it was never assigned), then write
or composite. -/
def processTile (out_format : Option String) (fs : FS) (t : Tile) : Except PyError FS :=
  let z := toString t.zoom_level
  let x := toString t.tile_column
  let fs2 := safeMakeDir (safeMakeDir fs [z]) [z, x]
  match out_format with
  | none => .error .nameError
  | some ext => writeOrComposite fs2 (tileOutputPath t ext) t.tile_data

/-- The extraction loop over the filtered cursor (src/convert.py lines
293-313): process tiles in order; an uncaught error stops everything. -/
def extractTiles (out_format : Option String) : FS → List Tile → Except PyError FS
  | fs, [] => .ok fs
  | fs, t :: ts =>
    match processTile out_format fs t with
    | .error e => .error e
    | .ok fs' => extractTiles out_format fs' ts

/-! ## Archives and the validation loop -/

/-- An archive's embedded database, as the script's queries observe it.
`metadataOk` / `tilesOk` record whether queries against the `metadata` /
`TILES` relations succeed (`false` raises `sqlite3.OperationalError`);
`formatRow` is the row returned by
`SELECT value FROM metadata WHERE name='format'` — `none` when no row exists,
`some none` when the row's value is NULL. -/
structure ArchiveDB where
  metadataOk : Bool
  formatRow : Option (Option String)
  tilesOk : Bool
  tiles : List Tile
deriving Repr, DecidableEq

/-- A file of the source directory: base name, extension (as split by
`os.path.splitext`), and the database the script sees when connecting to it. -/
structure SrcFile where
  name : String
  extension : String
  db : ArchiveDB
deriving Repr, DecidableEq

/-- The diagnostics appended to `parse_message` (src/convert.py lines 168-174). -/
inductive Msg where
  /-- The happy-path listing `' | {l} tiles, zoom levels: {z}'`. -/
  | okSummary (tileCount : Nat)
  /-- `' Error: Unsupported tile format: {img_format}'`. -/
  | unsupportedFormat (value : String)
  /-- `' Error: Missing format metadata'`. -/
  | missingFormat
  /-- `' Error: Operational Error: ...'`. -/
  | operationalError
deriving Repr, DecidableEq

/-- The accumulator of the validation loop (src/convert.py lines 142-146):
`names_to_parse`, `parse_message`, `files_exported`.  The export set keeps the
whole source file so the driver can reconnect to the same database. -/
structure ValidationState where
  names_to_parse : List String
  parse_message : List Msg
  files_exported : List SrcFile
deriving Repr, DecidableEq

/-- One iteration of the validation loop (src/convert.py lines 149-174).
Files with the wrong extension are skipped.  A metadata query failure is caught
as an operational-error diagnostic.  When the `format` row is absent,
`cursor.fetchone()[0]` subscripts `None`: an uncaught `TypeError`.  A supported
format (`png`/`jpg`/`jpeg`) appends to `files_exported` BEFORE the `TILES`
queries run, so a tile-relation failure is caught and recorded but the archive
stays in the export set.  An unsupported truthy format value, or a falsy one
(NULL or empty string), only records a diagnostic. -/
def validateFile (ext : String) (st : ValidationState) (f : SrcFile) :
    Except PyError ValidationState :=
  if f.extension = ext then
    let st1 := { st with names_to_parse := st.names_to_parse ++ [f.name] }
    if f.db.metadataOk then
      match f.db.formatRow with
      | none => .error .typeError
      | some v =>
        if v = some "png" ∨ v = some "jpg" ∨ v = some "jpeg" then
          let st2 := { st1 with files_exported := st1.files_exported ++ [f] }
          if f.db.tilesOk then
            .ok { st2 with parse_message := st2.parse_message ++ [.okSummary f.db.tiles.length] }
          else
            .ok { st2 with parse_message := st2.parse_message ++ [.operationalError] }
        else
          match v with
          | some s =>
            if s = "" then
              .ok { st1 with parse_message := st1.parse_message ++ [.missingFormat] }
            else
              .ok { st1 with parse_message := st1.parse_message ++ [.unsupportedFormat s] }
          | none => .ok { st1 with parse_message := st1.parse_message ++ [.missingFormat] }
    else
      .ok { st1 with parse_message := st1.parse_message ++ [.operationalError] }
  else
    .ok st

/-- The whole validation loop (src/convert.py lines 149-174), over the source
directory listing in order; an uncaught exception aborts it. -/
def validateArchives (ext : String) : ValidationState → List SrcFile → Except PyError ValidationState
  | st, [] => .ok st
  | st, f :: rest =>
    match validateFile ext st f with
    | .error e => .error e
    | .ok st' => validateArchives ext st' rest

/-! ## The extraction driver -/

/-- The `out_format` determination of the driver (src/convert.py lines
264-273).  `img_format` here is the whole fetched row: any existing row
(a one-element tuple, even `(None,)`) is truthy, so the row-absent case sets
`out_format = ''`; a `png`/`jpg` value sets the matching extension; any other
existing row takes NEITHER branch and `out_format` keeps whatever binding it
had from a previous loop iteration (`none` = still unbound, a `NameError` when
first used). -/
def determineOutFormat (row : Option (Option String)) (prev : Option String) : Option String :=
  match row with
  | none => some ""
  | some v =>
    if v = some "png" then some ".png"
    else if v = some "jpg" then some ".jpg"
    else prev

/-- The per-archive body of the driver (src/convert.py lines 256-317): the
metadata query and `out_format` determination, the `SELECT COUNT(1) FROM TILES`
(an uncaught `OperationalError` when the tile relation is broken — the driver
has no exception handler), the zoom-filtered select, and the extraction loop.
Returns the possibly-updated `out_format` binding along with the file system. -/
def driveArchive (db : ArchiveDB) (mn mz : Int) (prev : Option String) (fs : FS) :
    Except PyError (Option String × FS) :=
  if db.metadataOk then
    let o := determineOutFormat db.formatRow prev
    if db.tilesOk then
      match extractTiles o fs (selectTiles db.tiles mn mz) with
      | .error e => .error e
      | .ok fs' => .ok (o, fs')
    else
      .error .operationalError
  else
    .error .operationalError

/-- The driver loop over `files_exported` (src/convert.py lines 256-317),
threading the module-level `out_format` binding across archives. -/
def driveArchives (mn mz : Int) : Option String → FS → List SrcFile → Except PyError FS
  | _, fs, [] => .ok fs
  | prev, fs, f :: rest =>
    match driveArchive f.db mn mz prev fs with
    | .error e => .error e
    | .ok (o, fs') => driveArchives mn mz o fs' rest

/-- How a run of the script ends. -/
inductive Outcome where
  /-- `exit(code)` was called. -/
  | exited (code : Nat)
  /-- An uncaught Python exception terminated the process. -/
  | crashed (e : PyError)
  /-- Normal completion with the final output directory. -/
  | done (fs : FS)
deriving Repr, DecidableEq

/-- The script's main flow after argument processing (src/convert.py lines
149-318): validate every source file, `exit(1)` when the export set is empty
(line 205-207, before any extraction), then run the extraction driver over the
export set.  Console output and the optional clean step are peripheral I/O and
not modelled. -/
def runMain (ext : String) (files : List SrcFile) (mn mz : Int) (fs : FS) : Outcome :=
  match validateArchives ext ⟨[], [], []⟩ files with
  | .error e => .crashed e
  | .ok st =>
    if st.files_exported = [] then .exited 1
    else
      match driveArchives mn mz none fs st.files_exported with
      | .error e => .crashed e
      | .ok fs' => .done fs'

/-! ## Concrete fixtures used to evaluate the model -/

/-- An opaque 1×1 background tile. -/
def c7bg : Img := ⟨1, 1, [⟨10, 20, 30, 255⟩]⟩

/-- A fully transparent 1×1 foreground tile. -/
def c7fg : Img := ⟨1, 1, [⟨5, 6, 7, 0⟩]⟩

/-- An output directory already holding the background tile. -/
def c7fs : FS := ⟨[], [(["1", "0", "1.png"], encodeImage c7bg)]⟩

/-- A 1×1 image with partial (128) alpha. -/
def c9img : Img := ⟨1, 1, [⟨100, 150, 200, 128⟩]⟩

/-- A tile at zoom 1, column 0, row 0 whose blob is the partial-alpha image. -/
def c9tile : Tile := ⟨1, 0, 0, encodeImage c9img⟩

/-- The output path of `c9tile`: zoom 1, column 0, flipped row `2^1 - 1 - 0 = 1`. -/
def c9path : List String := ["1", "0", "1.png"]

/-- An archive whose metadata relation has no `format` row. -/
def noFormatArchive : SrcFile := ⟨"a.mbtiles", ".mbtiles", ⟨true, none, true, []⟩⟩

/-- An archive declaring format `jpeg` with one tile. -/
def jpegArchive : SrcFile :=
  ⟨"j.mbtiles", ".mbtiles", ⟨true, some (some "jpeg"), true, [⟨0, 0, 0, [0]⟩]⟩⟩

/-- An archive declaring format `geojson`. -/
def geojsonArchive : SrcFile := ⟨"g.mbtiles", ".mbtiles", ⟨true, some (some "geojson"), true, []⟩⟩

/-- An archive declaring format `png` whose tile relation cannot be queried. -/
def tilesBrokenArchive : SrcFile := ⟨"b.mbtiles", ".mbtiles", ⟨true, some (some "png"), false, []⟩⟩

/-! ## Helper lemmas -/

/-- Membership characterisation of the four-branch zoom dispatch: a tile is
yielded exactly when it is in the archive and satisfies each bound that is not
the `-1` sentinel. -/
theorem selectTiles_mem (tiles : List Tile) (mn mz : Int) (t : Tile) :
    t ∈ selectTiles tiles mn mz ↔
      t ∈ tiles ∧ (mn = -1 ∨ mn ≤ (t.zoom_level : Int)) ∧
        (mz = -1 ∨ (t.zoom_level : Int) ≤ mz) := by
  unfold selectTiles
  by_cases hmn : mn = -1 <;> by_cases hmz : mz = -1 <;>
    simp [hmn, hmz, List.mem_filter] <;> tauto

theorem muldiv255_zero (v : Nat) : muldiv255 v 0 = 0 := by
  simp [muldiv255]

theorem muldiv255_255 (v : Nat) (hv : v ≤ 255) : muldiv255 v 255 = v := by
  unfold muldiv255
  omega

/-- The `MULDIV255` computation is exact rounded division by 255. -/
theorem muldiv255_round (x : Nat) (hx : x ≤ 65025) :
    ((x + 128) / 256 + (x + 128)) / 256 = (2 * x + 255) / 510 := by
  omega

/-- Blending a value towards itself is the identity, whatever the mask: PIL's
exact rounded division by 255 satisfies
`MULDIV255(v, 255 - m) + MULDIV255(v, m) = v`. -/
theorem blend_self (m v : Nat) (hm : m ≤ 255) (hv : v ≤ 255) : blend m v v = v := by
  unfold blend muldiv255
  have h1 : v * (255 - m) + v * m = 255 * v := by
    have h : 255 - m + m = 255 := by omega
    calc v * (255 - m) + v * m = v * (255 - m + m) := (Nat.mul_add v (255 - m) m).symm
      _ = v * 255 := by rw [h]
      _ = 255 * v := Nat.mul_comm v 255
  have h2 : v * m ≤ 65025 := Nat.mul_le_mul hv hm
  have h3 : v * (255 - m) ≤ 65025 := by omega
  rw [muldiv255_round (v * (255 - m)) h3, muldiv255_round (v * m) h2]
  omega

/-- A zero mask preserves the background value exactly. -/
theorem blend_zero (v w : Nat) (hv : v ≤ 255) : blend 0 v w = v := by
  unfold blend muldiv255
  simp only [Nat.sub_zero, Nat.mul_zero]
  omega

theorem pastePixel_transparent (bg fg : Pixel) (hbg : bg.inRange) (ha : fg.a = 0) :
    pastePixel bg fg = bg := by
  obtain ⟨h1, h2, h3, h4⟩ := hbg
  cases bg
  simp only [pastePixel, ha]
  simp_all [blend_zero]

theorem pastePixel_self (p : Pixel) (hp : p.inRange) : pastePixel p p = p := by
  obtain ⟨h1, h2, h3, h4⟩ := hp
  cases p
  simp only [pastePixel]
  simp_all [blend_self]

theorem zipWith_paste_transparent :
    ∀ (bgs fgs : List Pixel), (∀ p ∈ bgs, p.inRange) → (∀ q ∈ fgs, q.a = 0) →
      bgs.length ≤ fgs.length → List.zipWith pastePixel bgs fgs = bgs
  | [], _, _, _, _ => by simp
  | _ :: _, [], _, _, hlen => by simp at hlen
  | bg :: bgs, fg :: fgs, hbg, hfg, hlen => by
    simp only [List.zipWith_cons_cons]
    rw [pastePixel_transparent bg fg (hbg bg (List.mem_cons_self bg bgs))
      (hfg fg (List.mem_cons_self fg fgs))]
    rw [zipWith_paste_transparent bgs fgs (fun p hp => hbg p (List.mem_cons_of_mem bg hp))
      (fun q hq => hfg q (List.mem_cons_of_mem fg hq)) (by simpa using hlen)]

theorem zipWith_paste_self :
    ∀ (ps : List Pixel), (∀ p ∈ ps, p.inRange) → List.zipWith pastePixel ps ps = ps
  | [], _ => by simp
  | p :: ps, hps => by
    simp only [List.zipWith_cons_cons]
    rw [pastePixel_self p (hps p (List.mem_cons_self p ps))]
    rw [zipWith_paste_self ps (fun q hq => hps q (List.mem_cons_of_mem p hq))]

/-- Pasting a fully transparent foreground (of at least the background's size)
leaves the background image unchanged. -/
theorem pasteImage_transparent (bg fg : Img) (hbg : bg.wf)
    (hfg : ∀ q ∈ fg.pixels, q.a = 0) (hlen : bg.pixels.length ≤ fg.pixels.length) :
    pasteImage bg fg = bg := by
  cases bg with
  | mk w h ps =>
    simp only [pasteImage]
    rw [zipWith_paste_transparent ps fg.pixels hbg.2 hfg hlen]

/-- Pasting an image over itself, masked by its own alpha, is the identity. -/
theorem pasteImage_self (im : Img) (him : im.wf) : pasteImage im im = im := by
  cases im with
  | mk w h ps =>
    simp only [pasteImage]
    rw [zipWith_paste_self ps him.2]

theorem decodePixels_encode :
    ∀ (ps : List Pixel), (∀ p ∈ ps, p.inRange) →
      decodePixels (ps.map encodePixel).flatten = some ps
  | [], _ => rfl
  | ⟨r, g, b, a⟩ :: ps, hps => by
    obtain ⟨h1, h2, h3, h4⟩ := hps _ (List.mem_cons_self _ ps)
    have hrec := decodePixels_encode ps (fun q hq => hps q (List.mem_cons_of_mem _ hq))
    show decodePixels (r :: g :: b :: a :: (ps.map encodePixel).flatten) = _
    simp only [decodePixels]
    rw [if_pos ⟨h1, h2, h3, h4⟩, hrec]
    rfl

/-- The codec round trip: decoding an encoded well-formed image recovers it
exactly (the lossless-format contract of PNG). -/
theorem decodeImage_encodeImage (im : Img) (him : im.wf) :
    decodeImage (encodeImage im) = some im := by
  cases im with
  | mk w h ps =>
    simp only [encodeImage, decodeImage]
    rw [decodePixels_encode ps him.2]
    exact if_pos him.1

theorem decodePixels_inRange :
    ∀ (bytes : List Nat) (ps : List Pixel), decodePixels bytes = some ps →
      ∀ p ∈ ps, p.inRange
  | [], ps, h => by
    simp only [decodePixels, Option.some.injEq] at h
    subst h
    intro p hp
    simp at hp
  | r :: g :: b :: a :: rest, ps, h => by
    simp only [decodePixels] at h
    split at h
    · rename_i hrange
      cases hrest : decodePixels rest with
      | none => rw [hrest] at h; simp at h
      | some qs =>
        rw [hrest] at h
        simp only [Option.map_some', Option.some.injEq] at h
        subst h
        intro p hp
        rcases List.mem_cons.mp hp with hp | hp
        · subst hp; exact hrange
        · exact decodePixels_inRange rest qs hrest p hp
    · simp at h
  | [_], ps, h => by simp [decodePixels] at h
  | [_, _], ps, h => by simp [decodePixels] at h
  | [_, _, _], ps, h => by simp [decodePixels] at h

/-- Anything `decodeImage` accepts is a well-formed image. -/
theorem decodeImage_wf (bytes : List Nat) (im : Img) (h : decodeImage bytes = some im) :
    im.wf := by
  match bytes with
  | [] => simp [decodeImage] at h
  | [_] => simp [decodeImage] at h
  | w :: hgt :: rest =>
    simp only [decodeImage] at h
    cases hps : decodePixels rest with
    | none => rw [hps] at h; simp at h
    | some ps =>
      rw [hps] at h
      simp only at h
      split at h
      · rename_i hlen
        cases h
        exact ⟨hlen, decodePixels_inRange rest ps hps⟩
      · simp at h

theorem FS.lookupFile_writeFile_self (fs : FS) (p : List String) (bytes : List Nat) :
    (fs.writeFile p bytes).lookupFile p = some bytes := by
  simp [FS.writeFile, FS.lookupFile, List.find?]

/-! ## The claims -/

/-- Claim C1: for every tile record processed by the extraction driver, the row
component of the output path is exactly `2^zoom - 1 - row`, while the zoom and
column components are used unchanged — the driver's path construction is
exactly the spec's `translate`. -/
theorem c1_row_flip (t : Tile) (ext : String) :
    tileOutputPath t ext =
      [toString (translate t.zoom_level t.tile_column t.tile_row).1,
       toString (translate t.zoom_level t.tile_column t.tile_row).2.1,
       toString (translate t.zoom_level t.tile_column t.tile_row).2.2 ++ ext] ∧
    (translate t.zoom_level t.tile_column t.tile_row).2.2 =
      (2 : Int) ^ t.zoom_level - 1 - (t.tile_row : Int) :=
  ⟨rfl, rfl⟩

/-- Claim C3: the filtered tile query yields exactly the archive's tiles whose
zoom level lies in the inclusive range; an absent bound (the `-1` sentinel)
imposes no constraint on its side, and with both bounds absent every tile is
yielded. -/
theorem c3_zoom_filter (tiles : List Tile) (mn mz : Int) (t : Tile) :
    t ∈ selectTiles tiles mn mz ↔
      t ∈ tiles ∧ (mn = -1 ∨ mn ≤ (t.zoom_level : Int)) ∧
        (mz = -1 ∨ (t.zoom_level : Int) ≤ mz) :=
  selectTiles_mem tiles mn mz t

/-- Claim C10: `-1` is the internal sentinel for an absent zoom bound: it is
the argparse default on both sides, an explicitly passed `-1` is
indistinguishable from leaving the bound unset, and with it no constraint is
applied on that side at all, so `-1` can never act as a literal zoom bound. -/
theorem c10_sentinel (tiles : List Tile) (mn mz : Int) (t : Tile) :
    selectTiles tiles min_zoom_default mz = selectTiles tiles (-1) mz ∧
    selectTiles tiles mn max_zoom_default = selectTiles tiles mn (-1) ∧
    (t ∈ selectTiles tiles (-1) mz ↔
      t ∈ tiles ∧ (mz = -1 ∨ (t.zoom_level : Int) ≤ mz)) ∧
    (t ∈ selectTiles tiles mn (-1) ↔
      t ∈ tiles ∧ (mn = -1 ∨ mn ≤ (t.zoom_level : Int))) := by
  refine ⟨rfl, rfl, ?_, ?_⟩
  · simp [selectTiles_mem]
  · simp [selectTiles_mem]

/-- Claim C2: the tile compositor writes a new file byte-for-byte verbatim when
no file exists at the path; when one exists it decodes both images to RGBA,
pastes the new image over the existing one at the origin with the new image's
own alpha as the mask, and re-encodes over the same path; parent directory
creation is idempotent; and the driver's per-tile step is exactly directory
creation followed by this compositor. -/
theorem c2_writeOrComposite (fs : FS) (p : List String) (bytes : List Nat) :
    (fs.lookupFile p = none →
      writeOrComposite fs p bytes = .ok (fs.writeFile p bytes) ∧
      (fs.writeFile p bytes).lookupFile p = some bytes) ∧
    (∀ old im1 im2, fs.lookupFile p = some old →
      decodeImage old = some im1 → decodeImage bytes = some im2 →
      writeOrComposite fs p bytes =
        .ok (fs.writeFile p (encodeImage (pasteImage im1 im2)))) ∧
    (∀ d, safeMakeDir (safeMakeDir fs d) d = safeMakeDir fs d) ∧
    (∀ ext t, processTile (some ext) fs t =
      writeOrComposite
        (safeMakeDir (safeMakeDir fs [toString t.zoom_level])
          [toString t.zoom_level, toString t.tile_column])
        (tileOutputPath t ext) t.tile_data) := by
  refine ⟨?_, ?_, ?_, fun ext t => rfl⟩
  · intro h
    unfold writeOrComposite
    rw [h]
    exact ⟨rfl, FS.lookupFile_writeFile_self fs p bytes⟩
  · intro old im1 im2 h h1 h2
    unfold writeOrComposite
    simp only [h, h1, h2]
  · intro d
    unfold safeMakeDir
    by_cases hd : d ∈ fs.dirs
    · simp [hd]
    · simp [hd]

/-- Witness for C2: on an empty output directory the compositor stores the raw
bytes verbatim. -/
theorem c2_witness :
    writeOrComposite ⟨[], []⟩ ["1", "0", "1.png"] [7, 7] =
      .ok (FS.writeFile ⟨[], []⟩ ["1", "0", "1.png"] [7, 7]) ∧
    (FS.writeFile ⟨[], []⟩ ["1", "0", "1.png"] [7, 7]).lookupFile ["1", "0", "1.png"] =
      some [7, 7] :=
  (c2_writeOrComposite ⟨[], []⟩ ["1", "0", "1.png"] [7, 7]).1 rfl

/-- Claim C7: compositing a fully transparent tile onto an existing tile is a
no-op on the decoded content — the file afterwards decodes pixel-identically to
the original decoded image. -/
theorem c7_transparent_noop (fs : FS) (p : List String) (old bytes : List Nat)
    (im1 fg : Img) (hlk : fs.lookupFile p = some old)
    (h1 : decodeImage old = some im1) (h2 : decodeImage bytes = some fg)
    (htr : ∀ q ∈ fg.pixels, q.a = 0)
    (hlen : im1.pixels.length ≤ fg.pixels.length) :
    writeOrComposite fs p bytes = .ok (fs.writeFile p (encodeImage im1)) ∧
    ((fs.writeFile p (encodeImage im1)).lookupFile p).bind decodeImage = some im1 := by
  have hwf := decodeImage_wf old im1 h1
  have hpaste : pasteImage im1 fg = im1 := pasteImage_transparent im1 fg hwf htr hlen
  constructor
  · unfold writeOrComposite
    simp only [hlk, h1, h2, hpaste]
  · rw [FS.lookupFile_writeFile_self]
    exact decodeImage_encodeImage im1 hwf

/-- Witness for C7: the concrete transparent foreground leaves the concrete
opaque background untouched. -/
theorem c7_witness :
    writeOrComposite c7fs ["1", "0", "1.png"] (encodeImage c7fg) =
      .ok (c7fs.writeFile ["1", "0", "1.png"] (encodeImage c7bg)) ∧
    ((c7fs.writeFile ["1", "0", "1.png"] (encodeImage c7bg)).lookupFile
      ["1", "0", "1.png"]).bind decodeImage = some c7bg :=
  c7_transparent_noop c7fs ["1", "0", "1.png"] (encodeImage c7bg) (encodeImage c7fg)
    c7bg c7fg rfl (by decide) (by decide) (by decide) (by decide)

/-- Claim C4, evaluated at the failing input: an archive whose metadata
relation has no `format` row gets no MissingFormatMetadata diagnostic —
subscripting the `None` returned by `fetchone()` raises an uncaught
`TypeError` that crashes the whole run instead of continuing. -/
theorem c4_missing_format_row_crashes :
    validateArchives ".mbtiles" ⟨[], [], []⟩ [noFormatArchive] = .error .typeError ∧
    runMain ".mbtiles" [noFormatArchive] (-1) (-1) ⟨[], []⟩ = .crashed .typeError :=
  ⟨rfl, rfl⟩

/-- Claim C5, evaluated at the failing input: a validated archive declaring
format `jpeg` never gets `out_format` assigned — the driver dispatches only on
`png` and `jpg` — so its first tile raises an uncaught `NameError` instead of
using a well-defined extension. -/
theorem c5_jpeg_archive_crashes :
    determineOutFormat (some (some "jpeg")) none = none ∧
    runMain ".mbtiles" [jpegArchive] (-1) (-1) ⟨[], []⟩ = .crashed .nameError :=
  ⟨rfl, rfl⟩

/-- Counterexample to claim C6 as stated: an archive whose tile relation fails
to answer queries gets its diagnostic, but it is NOT excluded from the export
set — `files_exported.append` runs before the tile query. -/
theorem c6_counterexample :
    validateArchives ".mbtiles" ⟨[], [], []⟩ [tilesBrokenArchive] =
      .ok ⟨["b.mbtiles"], [.operationalError], [tilesBrokenArchive]⟩ :=
  rfl

/-- Claim C6 amended: an unsupported format value records a diagnostic,
excludes the archive from the export set, and validation continues with the
remaining archives; an operational failure of the tile relation records a
diagnostic and validation continues, but the archive remains in the export set
(it was appended before the tile query); an empty export set makes the program
exit with code 1 before any extraction. -/
theorem c6_amended :
    (∀ (st : ValidationState) (f : SrcFile) (rest : List SrcFile) (ext s : String),
      f.extension = ext → f.db.metadataOk = true → f.db.formatRow = some (some s) →
      s ≠ "png" → s ≠ "jpg" → s ≠ "jpeg" → s ≠ "" →
      validateArchives ext st (f :: rest) =
        validateArchives ext
          { st with names_to_parse := st.names_to_parse ++ [f.name],
                    parse_message := st.parse_message ++ [.unsupportedFormat s] } rest) ∧
    (∀ (st : ValidationState) (f : SrcFile) (rest : List SrcFile) (ext s : String),
      f.extension = ext → f.db.metadataOk = true → f.db.formatRow = some (some s) →
      (s = "png" ∨ s = "jpg" ∨ s = "jpeg") → f.db.tilesOk = false →
      validateArchives ext st (f :: rest) =
        validateArchives ext
          { st with names_to_parse := st.names_to_parse ++ [f.name],
                    parse_message := st.parse_message ++ [.operationalError],
                    files_exported := st.files_exported ++ [f] } rest) ∧
    (∀ (ext : String) (files : List SrcFile) (mn mz : Int) (fs : FS)
      (st : ValidationState),
      validateArchives ext ⟨[], [], []⟩ files = .ok st → st.files_exported = [] →
      runMain ext files mn mz fs = .exited 1) := by
  refine ⟨?_, ?_, ?_⟩
  · intro st f rest ext s hext hmeta hrow h1 h2 h3 h4
    have hv : validateFile ext st f = .ok
        { st with names_to_parse := st.names_to_parse ++ [f.name],
                  parse_message := st.parse_message ++ [.unsupportedFormat s] } := by
      simp [validateFile, hext, hmeta, hrow, h1, h2, h3, h4]
    simp only [validateArchives, hv]
  · intro st f rest ext s hext hmeta hrow hsup htk
    have hv : validateFile ext st f = .ok
        { st with names_to_parse := st.names_to_parse ++ [f.name],
                  parse_message := st.parse_message ++ [.operationalError],
                  files_exported := st.files_exported ++ [f] } := by
      rcases hsup with h | h | h <;> subst h <;>
        simp [validateFile, hext, hmeta, hrow, htk]
    simp only [validateArchives, hv]
  · intro ext files mn mz fs st hval hemp
    unfold runMain
    rw [hval]
    simp [hemp]

/-- Witness for C6 (amended): a `geojson` archive is skipped with its
diagnostic, and when it is the only candidate the run exits with code 1. -/
theorem c6_witness :
    validateArchives ".mbtiles" ⟨[], [], []⟩ [geojsonArchive] =
      validateArchives ".mbtiles"
        ⟨[] ++ ["g.mbtiles"], [] ++ [Msg.unsupportedFormat "geojson"], []⟩ [] ∧
    runMain ".mbtiles" [geojsonArchive] (-1) (-1) ⟨[], []⟩ = .exited 1 := by
  constructor
  · exact c6_amended.1 ⟨[], [], []⟩ geojsonArchive [] ".mbtiles" "geojson"
      rfl rfl rfl (by decide) (by decide) (by decide) (by decide)
  · exact c6_amended.2.2 ".mbtiles" [geojsonArchive] (-1) (-1) ⟨[], []⟩
      ⟨["g.mbtiles"], [Msg.unsupportedFormat "geojson"], []⟩ rfl rfl

/-- Claim C8: a decode failure during compositing is fatal for the whole run:
the extraction loop has no handler, so the error short-circuits past all
remaining tiles of the archive, a failing archive short-circuits past all
remaining archives, and the run ends as a crash. -/
theorem c8_decode_failure_fatal :
    (∀ (o : Option String) (fs fs1 : FS) (pre post : List Tile) (t : Tile) (e : PyError),
      extractTiles o fs pre = .ok fs1 → processTile o fs1 t = .error e →
      extractTiles o fs (pre ++ t :: post) = .error e) ∧
    (∀ (f : SrcFile) (rest : List SrcFile) (mn mz : Int) (prev : Option String)
      (fs : FS) (e : PyError),
      driveArchive f.db mn mz prev fs = .error e →
      driveArchives mn mz prev fs (f :: rest) = .error e) ∧
    (∀ (ext : String) (files : List SrcFile) (mn mz : Int) (fs : FS)
      (st : ValidationState) (e : PyError),
      validateArchives ext ⟨[], [], []⟩ files = .ok st → st.files_exported ≠ [] →
      driveArchives mn mz none fs st.files_exported = .error e →
      runMain ext files mn mz fs = .crashed e) := by
  refine ⟨?_, ?_, ?_⟩
  · intro o fs fs1 pre post t e hpre ht
    induction pre generalizing fs with
    | nil =>
      simp only [extractTiles, Except.ok.injEq] at hpre
      subst hpre
      simp only [List.nil_append, extractTiles, ht]
    | cons q qs ih =>
      rw [List.cons_append]
      simp only [extractTiles] at hpre ⊢
      cases hq : processTile o fs q with
      | error e' =>
        rw [hq] at hpre
        simp at hpre
      | ok fs' =>
        rw [hq] at hpre
        simp only [hq]
        exact ih fs' hpre
  · intro f rest mn mz prev fs e h
    simp only [driveArchives, h]
  · intro ext files mn mz fs st e hval hne hdrv
    unfold runMain
    rw [hval]
    simp [hne, hdrv]

/-- Witness for C8: a tile whose target file already holds undecodable bytes
crashes the extraction loop at that tile. -/
theorem c8_witness :
    extractTiles (some ".png") ⟨[], [(["1", "0", "1.png"], [2, 3])]⟩ [⟨1, 0, 0, [99]⟩] =
      .error .decodeError :=
  c8_decode_failure_fatal.1 (some ".png") ⟨[], [(["1", "0", "1.png"], [2, 3])]⟩
    ⟨[], [(["1", "0", "1.png"], [2, 3])]⟩ [] [] ⟨1, 0, 0, [99]⟩ .decodeError rfl rfl

/-- Counterexample to claim C9 as stated: a concrete partial-alpha tile,
extracted a second time over the same uncleaned output directory, yields a file
whose decoded content is pixel-identical to the single run's — `paste` with the
image's own alpha mask blends every band of an image towards itself, which is
the identity, so no double-blending occurs. -/
theorem c9_counterexample :
    (extractTiles (some ".png") ⟨[], []⟩ [c9tile]).map
      (fun fs => (fs.lookupFile c9path).bind decodeImage) = .ok (some c9img) ∧
    (extractTiles (some ".png") ⟨[], []⟩ [c9tile, c9tile]).map
      (fun fs => (fs.lookupFile c9path).bind decodeImage) = .ok (some c9img) :=
  ⟨rfl, rfl⟩

/-- Claim C9 amended: re-running extraction composites each tile over the file
its first run wrote, but the paste-with-own-alpha-mask blend of an image over
itself is a pixel-level identity, so the second application re-encodes the same
decoded content: the compositor is pixel-idempotent under re-application of
identical bytes (the stored bytes can change only by re-encoding, not by alpha
double-blending). -/
theorem c9_amended (fs : FS) (p : List String) (bytes : List Nat) (im : Img)
    (h0 : fs.lookupFile p = none) (hd : decodeImage bytes = some im) :
    writeOrComposite fs p bytes = .ok (fs.writeFile p bytes) ∧
    writeOrComposite (fs.writeFile p bytes) p bytes =
      .ok ((fs.writeFile p bytes).writeFile p (encodeImage im)) ∧
    ((fs.writeFile p bytes).lookupFile p).bind decodeImage = some im ∧
    (((fs.writeFile p bytes).writeFile p (encodeImage im)).lookupFile p).bind
      decodeImage = some im := by
  have hwf := decodeImage_wf bytes im hd
  have hpaste := pasteImage_self im hwf
  refine ⟨?_, ?_, ?_, ?_⟩
  · unfold writeOrComposite
    simp only [h0]
  · unfold writeOrComposite
    simp only [FS.lookupFile_writeFile_self, hd, hpaste]
  · rw [FS.lookupFile_writeFile_self]
    exact hd
  · rw [FS.lookupFile_writeFile_self]
    exact decodeImage_encodeImage im hwf

/-- Witness for C9 (amended): the concrete partial-alpha tile is written, then
re-composited over itself without changing the decoded content. -/
theorem c9_witness :
    writeOrComposite ⟨[], []⟩ c9path (encodeImage c9img) =
      .ok (FS.writeFile ⟨[], []⟩ c9path (encodeImage c9img)) ∧
    writeOrComposite (FS.writeFile ⟨[], []⟩ c9path (encodeImage c9img)) c9path
        (encodeImage c9img) =
      .ok ((FS.writeFile ⟨[], []⟩ c9path (encodeImage c9img)).writeFile c9path
        (encodeImage c9img)) ∧
    ((FS.writeFile ⟨[], []⟩ c9path (encodeImage c9img)).lookupFile c9path).bind
      decodeImage = some c9img ∧
    (((FS.writeFile ⟨[], []⟩ c9path (encodeImage c9img)).writeFile c9path
        (encodeImage c9img)).lookupFile c9path).bind decodeImage = some c9img :=
  c9_amended ⟨[], []⟩ c9path (encodeImage c9img) c9img rfl (by decide)

end MBT
